import Mathlib

/-!
# Verification of the `traductor-api` service (src/app.py)

A shallow embedding of the translation service of `src/app.py`:

* the module-level resource state (`translator`, `translator_loading`,
  `translator_error`, `translator_loaded_at`, lines 51-54) as `GuardState`;
* `warmup_translator_async` (lines 74-101) as the atomic operation `warmup`
  (the trigger part, lines 80-84 and 101) together with `jobSucceed` /
  `jobFail` (the `_job` body, lines 86-99), with `pending` counting spawned
  load jobs not yet finished and `spawned` counting all loader invocations;
* the `/health` handler (lines 140-154) as `health`;
* the `/traducir` handler (lines 160-223) as `traducir`, parametrised by the
  configuration, the external translation pipeline (`ModelFn`, modelling the
  `transformers` pipeline call of line 209, which either returns a list of
  dicts or raises) and the measured elapsed milliseconds of line 211;
* the Python string helpers `str.strip` / `str.lower` as `pyStrip` / `pyLower`
  (character-list implementations so that the kernel can evaluate them).

Two further fine-grained models (`Conc` and `ConcF` namespaces) embed
`warmup_translator_async` at the granularity of single statements so that
interleavings of concurrent callers can be examined; `Conc` abstracts the
loader to always succeed, `ConcF` parametrises each invocation's outcome.
-/

namespace TraductorApi

/-- A parsed JSON value, as far as the handlers inspect one. -/
inductive JVal where
  | jstr (s : String)
  | jnum (n : Int)
  | jbool (b : Bool)
  | jnull
deriving DecidableEq, Repr

/-- A parsed JSON object body (the `data` dict of `request.get_json()`). -/
abbrev Payload := List (String × JVal)

/-- A `jsonify(...), code` pair as produced by every handler branch. -/
structure HttpResp where
  code : Nat
  body : List (String × JVal)
deriving DecidableEq, Repr

/-- `Optional[str]` rendered into JSON: `None ↦ null`, `s ↦ "s"`. -/
def jOptStr : Option String → JVal
  | none => .jnull
  | some s => .jstr s

/-- `Optional[float]` timestamp rendered into JSON (timestamps as `Nat`). -/
def jOptNum : Option Nat → JVal
  | none => .jnull
  | some n => .jnum n

/-- `APP_NAME` (line 22). -/
def APP_NAME : String := "traductor-api"

/-- Default `MODEL_ID` (line 23). -/
def MODEL_ID : String := "americasnlp/mt5-base-es-quw"

/-- The environment-sourced limits (lines 24-25): `MAX_TEXT_LEN` (default 300)
and `MAX_MODEL_LEN` (default 200). -/
structure Config where
  maxTextLen : Nat
  maxModelLen : Nat
deriving DecidableEq, Repr

/-- The defaults of lines 24-25. -/
def defaultConfig : Config := ⟨300, 200⟩

/-- Python whitespace as stripped by `str.strip()`. -/
def pyIsSpace (c : Char) : Bool :=
  c = ' ' || c = '\t' || c = '\n' || c = '\r' || c = '\x0b' || c = '\x0c'

/-- Python `str.strip()`: drop leading and trailing whitespace. -/
def pyStrip (s : String) : String :=
  ⟨((s.data.dropWhile pyIsSpace).reverse.dropWhile pyIsSpace).reverse⟩

/-- Python `str.lower()` (character-wise lowering). -/
def pyLower (s : String) : String :=
  ⟨s.data.map Char.toLower⟩

/-- Line 176: `texto_es = texto_es.strip().lower()`. -/
def normalize (s : String) : String := pyLower (pyStrip s)

/-- `ABECEDARIO_KICHWA` (lines 57-59). -/
def ABECEDARIO_KICHWA : List String :=
  ["a", "ch", "e", "h", "i", "k", "l", "ll", "m", "n", "ñ",
   "p", "q", "r", "s", "sh", "t", "u", "w", "y"]

/-- The module-level resource state (lines 51-54), instrumented with `pending`
(load jobs spawned and not yet finished) and `spawned` (total load jobs ever
spawned, i.e. loader invocations). The loaded pipeline object is opaque, so
`translator` only records presence. -/
structure GuardState where
  translator : Option Unit
  translator_loading : Bool
  translator_error : Option String
  translator_loaded_at : Option Nat
  pending : Nat
  spawned : Nat
deriving DecidableEq, Repr

/-- The initial module state (lines 51-54). -/
def init : GuardState :=
  { translator := none, translator_loading := false, translator_error := none,
    translator_loaded_at := none, pending := 0, spawned := 0 }

/-- The spec's four lifecycle states, derived from the module state the way
the code distinguishes them (`translator`/`translator_loading`/
`translator_error`). -/
inductive MStatus where
  | notReady | loading | ready | error
deriving DecidableEq, Repr

/-- Derived status: `Ready` iff the bundle is present, else `Loading` iff a
load is flagged, else `Error` iff a failure message is stored. -/
def status (st : GuardState) : MStatus :=
  if st.translator.isSome then .ready
  else if st.translator_loading then .loading
  else if st.translator_error.isSome then .error
  else .notReady

/-- `warmup_translator_async` (lines 74-101) as one atomic operation: return
unchanged when already loading or loaded (line 80), otherwise set
`translator_loading = True`, clear `translator_error` (lines 83-84) and spawn
the load job (line 101). -/
def warmup (st : GuardState) : GuardState :=
  if st.translator_loading || st.translator.isSome then st
  else
    { st with translator_loading := true, translator_error := none,
              pending := st.pending + 1, spawned := st.spawned + 1 }

/-- The `_job` body on success (lines 91-93 and 99): store the bundle, set
`translator_loaded_at`, finally clear `translator_loading`. `t` is the
timestamp taken at line 92. -/
def jobSucceed (t : Nat) (st : GuardState) : GuardState :=
  { st with translator := some (), translator_loaded_at := some t,
            translator_loading := false, pending := st.pending - 1 }

/-- The `_job` body on failure (lines 94-99): clear the bundle, store the
captured message, finally clear `translator_loading`. -/
def jobFail (m : String) (st : GuardState) : GuardState :=
  { st with translator := none, translator_error := some m,
            translator_loading := false, pending := st.pending - 1 }

/-- `GET /health` (lines 140-154). -/
def health (st : GuardState) : HttpResp :=
  ⟨200,
   [("ok", .jbool true),
    ("service", .jstr APP_NAME),
    ("model", .jstr MODEL_ID),
    ("model_status",
      .jstr (if st.translator.isSome then "ready"
             else if st.translator_loading then "loading" else "not_ready")),
    ("model_error", jOptStr st.translator_error),
    ("model_loaded_at", jOptNum st.translator_loaded_at)]⟩

/-- The result of the `transformers` pipeline call: a list of dicts
(line 209/210, `result[0].get("translation_text", ...)`). -/
abbrev ModelResult := List (List (String × String))

/-- The external translation pipeline `translator(texto, max_length=...)`:
returns a result list or raises (modelled as `Except` with the exception
message). -/
abbrev ModelFn := String → Nat → Except String ModelResult

/-- Python `dict.get(k, dflt)` on a string-valued dict. -/
def pyDictGetStr (d : List (String × String)) (k dflt : String) : String :=
  match d.lookup k with
  | some v => v
  | none => dflt

/-- The request body as the handler sees it: empty `request.data` (line 163),
a body `get_json` fails on (line 167), or a parsed JSON object. -/
inductive ReqBody where
  | empty
  | malformed
  | json (data : Payload)

/-- `Texto demasiado largo. Máximo {MAX_TEXT_LEN} caracteres.` (line 182). -/
def tooLongMsg (cfg : Config) : String :=
  "Texto demasiado largo. Máximo " ++ toString cfg.maxTextLen ++ " caracteres."

/-- `POST /traducir` (lines 160-223). `elapsedMs` is the measured duration
`int((_now() - t0) * 1000)` of line 211. Returns the response together with
the module state after the call (the handler mutates it only through
`warmup_translator_async`, line 192). -/
def traducir (cfg : Config) (model : ModelFn) (elapsedMs : Nat)
    (st : GuardState) (body : ReqBody) : HttpResp × GuardState :=
  match body with
  | .empty => (⟨400, [("error", .jstr "No se envió información")]⟩, st)
  | .malformed => (⟨400, [("error", .jstr "Formato JSON inválido")]⟩, st)
  | .json data =>
    match (match data.lookup "texto" with | some v => v | none => .jstr "") with
    | .jstr t =>
      let texto_es := normalize t
      if texto_es = "" then
        (⟨400, [("error", .jstr "No se envió texto")]⟩, st)
      else if texto_es.length > cfg.maxTextLen then
        (⟨400, [("error", .jstr (tooLongMsg cfg))]⟩, st)
      else if texto_es ∈ ABECEDARIO_KICHWA then
        (⟨200, [("texto_es", .jstr texto_es), ("traduccion", .jstr texto_es)]⟩, st)
      else
        match st.translator with
        | none =>
          let st' := warmup st
          if st'.translator_loading then
            (⟨503, [("error", .jstr "Modelo cargando. Intenta nuevamente en 20-60 segundos."),
                    ("status", .jstr "loading")]⟩, st')
          else
            (⟨500, [("error", .jstr "El modelo de traducción no está disponible"),
                    ("detail", jOptStr st'.translator_error)]⟩, st')
        | some _ =>
          match model texto_es cfg.maxModelLen with
          | .ok [] =>
            (⟨500, [("error", .jstr "Error interno de traducción")]⟩, st)
          | .ok (d :: _) =>
            let traduccion := pyStrip (pyDictGetStr d "translation_text" "")
            (⟨200, [("texto_es", .jstr texto_es), ("traduccion", .jstr traduccion),
                    ("ms", .jnum elapsedMs)]⟩, st)
          | .error _ =>
            (⟨500, [("error", .jstr "Error interno de traducción")]⟩, st)
    | _ => (⟨400, [("error", .jstr "El campo \x27texto\x27 debe ser string")]⟩, st)

/-!
## Fine-grained interleaving model of `warmup_translator_async`

`warmup_translator_async` (lines 74-101) runs without any lock: the guard
read of line 80 and the write of line 83 are separate statements, between
which the interpreter may switch threads. The `Conc` model embeds the
function at statement granularity: each thread is a program counter, and a
schedule (a list of thread indices) picks which thread executes its next
atomic statement. The injected loader is abstracted to always succeed;
`loaderCalls` counts its invocations.
-/

namespace Conc

/-- Program counter of one thread: a caller of `warmup_translator_async`
(`wCheck` = line 80, `wFlags` = lines 83-84, `wSpawn` = line 101) or a
spawned `_job` thread (`jInvoke` = line 91 calling the loader, `jCommit` =
lines 91-92 committing the result, `jFinish` = line 99). -/
inductive TPC where
  | wCheck | wFlags | wSpawn | wDone
  | jInvoke | jCommit | jFinish | jDone
deriving DecidableEq, Repr

/-- The shared module state plus the program counters of all live threads. -/
structure CState where
  translator : Bool
  loading : Bool
  error : Option String
  loaded_at : Option Nat
  loaderCalls : Nat
  threads : List TPC
deriving DecidableEq, Repr

/-- Execute one atomic statement of thread `i` (no-op for an absent or
finished thread). Spawning (line 101) appends a new `_job` thread. -/
def cstep (s : CState) (i : Nat) : CState :=
  match s.threads.get? i with
  | none => s
  | some pc =>
    match pc with
    | .wCheck =>
      if s.loading || s.translator then { s with threads := s.threads.set i .wDone }
      else { s with threads := s.threads.set i .wFlags }
    | .wFlags =>
      { s with loading := true, error := none, threads := s.threads.set i .wSpawn }
    | .wSpawn =>
      { s with threads := (s.threads.set i .wDone) ++ [.jInvoke] }
    | .jInvoke =>
      { s with loaderCalls := s.loaderCalls + 1, threads := s.threads.set i .jCommit }
    | .jCommit =>
      { s with translator := true, loaded_at := some 1, threads := s.threads.set i .jFinish }
    | .jFinish =>
      { s with loading := false, threads := s.threads.set i .jDone }
    | .wDone | .jDone => s

/-- Run a schedule: execute one atomic statement per entry. -/
def crun (s : CState) : List Nat → CState
  | [] => s
  | i :: rest => crun (cstep s i) rest

/-- Fresh module state with two threads about to call
`warmup_translator_async` concurrently. -/
def cinit : CState :=
  { translator := false, loading := false, error := none, loaded_at := none,
    loaderCalls := 0, threads := [.wCheck, .wCheck] }

/-- The racy schedule: both callers pass the line-80 guard before either
sets `translator_loading`. -/
def racySchedule : List Nat := [0, 1, 0, 0, 1, 1, 2, 3, 2, 3, 2, 3]

end Conc

/-!
## Fine-grained interleaving model with a fallible loader

`ConcF` is the same statement-granular embedding of
`warmup_translator_async` as `Conc`, except that the injected loader is not
abstracted to always succeed: the outcome of each loader invocation is a
parameter (`none` = the pipeline is returned, `some m` = the constructor
raises with message `m`), so races between a failing and a succeeding `_job`
(lines 91-96) can be examined.
-/

namespace ConcF

/-- Program counter of one thread: a caller of `warmup_translator_async`
(`wCheck` = line 80, `wFlags` = lines 83-84, `wSpawn` = line 101) or a
spawned `_job` thread (`jInvoke` = line 91 calling the loader, `jCommitOk` =
lines 91-92 committing a successful result, `jCommitErr` = lines 95-96
committing a failure, `jFinish` = line 99). -/
inductive TPC where
  | wCheck | wFlags | wSpawn | wDone
  | jInvoke | jCommitOk | jCommitErr (m : String) | jFinish | jDone
deriving DecidableEq, Repr

/-- The shared module state plus the program counters of all live threads. -/
structure CState where
  translator : Bool
  loading : Bool
  error : Option String
  loaded_at : Option Nat
  loaderCalls : Nat
  threads : List TPC
deriving DecidableEq, Repr

/-- Execute one atomic statement of thread `i` (no-op for an absent or
finished thread). `outcome n` is the result of the `n`-th loader invocation
(counting from 0): `none` = success, `some m` = exception with message `m`.
Spawning (line 101) appends a new `_job` thread. -/
def cstep (outcome : Nat → Option String) (s : CState) (i : Nat) : CState :=
  match s.threads.get? i with
  | none => s
  | some pc =>
    match pc with
    | .wCheck =>
      if s.loading || s.translator then { s with threads := s.threads.set i .wDone }
      else { s with threads := s.threads.set i .wFlags }
    | .wFlags =>
      { s with loading := true, error := none, threads := s.threads.set i .wSpawn }
    | .wSpawn =>
      { s with threads := (s.threads.set i .wDone) ++ [.jInvoke] }
    | .jInvoke =>
      match outcome s.loaderCalls with
      | none =>
        { s with loaderCalls := s.loaderCalls + 1, threads := s.threads.set i .jCommitOk }
      | some m =>
        { s with loaderCalls := s.loaderCalls + 1, threads := s.threads.set i (.jCommitErr m) }
    | .jCommitOk =>
      { s with translator := true, loaded_at := some 1, threads := s.threads.set i .jFinish }
    | .jCommitErr m =>
      { s with translator := false, error := some m, threads := s.threads.set i .jFinish }
    | .jFinish =>
      { s with loading := false, threads := s.threads.set i .jDone }
    | .wDone | .jDone => s

/-- Run a schedule: execute one atomic statement per entry. -/
def crun (outcome : Nat → Option String) (s : CState) : List Nat → CState
  | [] => s
  | i :: rest => crun outcome (cstep outcome s i) rest

/-- Fresh module state with two threads about to call
`warmup_translator_async` concurrently. -/
def cinit : CState :=
  { translator := false, loading := false, error := none, loaded_at := none,
    loaderCalls := 0, threads := [.wCheck, .wCheck] }

/-- A transiently failing loader: the first invocation raises `"m1"`, every
later one succeeds. -/
def flakyLoader : Nat → Option String
  | 0 => some "m1"
  | _ => none

/-- Both callers pass the line-80 guard and spawn a `_job` each; the first
job runs to completion and fails, then the second runs to completion and
succeeds. -/
def raceFailThenOk : List Nat := [0, 1, 0, 0, 1, 1, 2, 2, 2, 3, 3, 3]

end ConcF

/-- `warmup` on a state that is neither loading nor loaded: the trigger
proceeds. -/
theorem warmup_proceeds {s : GuardState} (htr : s.translator = none)
    (hld : s.translator_loading = false) :
    warmup s = { s with translator_loading := true, translator_error := none,
                        pending := s.pending + 1, spawned := s.spawned + 1 } := by
  unfold warmup
  simp [htr, hld]

/-- `warmup` on a state that is already loading: early return (line 80). -/
theorem warmup_noop_of_loading {s : GuardState} (hld : s.translator_loading = true) :
    warmup s = s := by
  unfold warmup
  simp [hld]

/-- Unfolding of the derived status: `Ready` exactly when the bundle is
present. -/
theorem status_ready_iff (st : GuardState) :
    status st = .ready ↔ st.translator.isSome := by
  unfold status
  split_ifs <;> simp_all [Option.isSome_iff_ne_none]

/-- Unfolding of the derived status: `Loading` exactly when no bundle is
present and a load is flagged. -/
theorem status_loading_iff (st : GuardState) :
    status st = .loading ↔ st.translator = none ∧ st.translator_loading = true := by
  unfold status
  split_ifs <;> simp_all [Option.isSome_iff_ne_none]

/-- Unfolding of the derived status: `Error` exactly when no bundle is
present, no load is flagged and an error is stored. -/
theorem status_error_iff (st : GuardState) :
    status st = .error ↔
      st.translator = none ∧ st.translator_loading = false ∧
      st.translator_error.isSome := by
  unfold status
  split_ifs <;> simp_all [Option.isSome_iff_ne_none]

/-- The request handler mutates the module state only through
`warmup_translator_async`: the state after a request is either untouched or
the result of one trigger. -/
theorem traducir_state_effect (cfg : Config) (model : ModelFn) (ms : Nat)
    (st : GuardState) (body : ReqBody) :
    (traducir cfg model ms st body).2 = st ∨
    (traducir cfg model ms st body).2 = warmup st := by
  unfold traducir
  cases body with
  | empty => exact Or.inl rfl
  | malformed => exact Or.inl rfl
  | json data =>
    dsimp only
    split
    · split
      · exact Or.inl rfl
      · split
        · exact Or.inl rfl
        · split
          · exact Or.inl rfl
          · split
            · split
              · exact Or.inr rfl
              · exact Or.inr rfl
            · split
              · exact Or.inl rfl
              · exact Or.inl rfl
              · exact Or.inl rfl
    · exact Or.inl rfl

/-!
## Claim theorems
-/

/-- C1: the claim says that concurrent callers that trigger the guard while
the resource is NotReady cause exactly one loader invocation, with at most
one load job in flight. The code violates this: `warmup_translator_async`
takes no lock between the guard read of line 80 and the write of line 83, so
in the interleaving `racySchedule` two concurrent callers both pass the
guard, both spawn a `_job`, the two jobs are in flight simultaneously (both
at the commit point after calling the loader), and the loader is invoked
twice. -/
theorem warmup_race_loader_invoked_twice :
    (Conc.crun Conc.cinit Conc.racySchedule).loaderCalls = 2 ∧
    ((Conc.crun Conc.cinit [0, 1, 0, 0, 1, 1, 2, 3]).threads.get? 2 = some .jCommit ∧
     (Conc.crun Conc.cinit [0, 1, 0, 0, 1, 1, 2, 3]).threads.get? 3 = some .jCommit) := by
  decide

/-- C2 counterexample: the claim says a literal hit answers with `ms` equal
to 0, but the literal branch of line 186 returns only `texto_es` and
`traduccion` — the 200 response for the alphabet symbol `"a"` has no `ms`
field at all. -/
theorem literal_response_has_no_ms_field :
    (traducir defaultConfig (fun _ _ => .ok []) 0 init (.json [("texto", .jstr "a")])).1.code = 200 ∧
    (traducir defaultConfig (fun _ _ => .ok []) 0 init
        (.json [("texto", .jstr "a")])).1.body.lookup "traduccion" = some (.jstr "a") ∧
    (traducir defaultConfig (fun _ _ => .ok []) 0 init
        (.json [("texto", .jstr "a")])).1.body.lookup "ms" = none := by
  decide

/-- C2 (amended): for every string `s` in the fixed alphabet set, and for
every payload whose `texto` value is a string normalizing to `s`, the request
handler (under the default configuration) returns 200 with `texto_es` and
`traduccion` both equal to `s` and no `ms` field, leaving the module state
untouched — the Guard and the model are never consulted (the response is the
same for every `model` and every state). -/
theorem literal_hit_returns_identity_without_ms
    (model : ModelFn) (ms : Nat) (st : GuardState) (data : Payload) (s t : String)
    (hs : s ∈ ABECEDARIO_KICHWA)
    (hl : data.lookup "texto" = some (.jstr t))
    (ht : normalize t = s) :
    traducir defaultConfig model ms st (.json data) =
      (⟨200, [("texto_es", .jstr s), ("traduccion", .jstr s)]⟩, st) := by
  have h1 : s ≠ "" ∧ s.length ≤ 300 :=
    (by decide : ∀ x ∈ ABECEDARIO_KICHWA, x ≠ "" ∧ x.length ≤ 300) s hs
  unfold traducir
  simp only [hl, ht]
  simp [h1.1, defaultConfig, Nat.not_lt.mpr h1.2, hs]

/-- C2 witness. -/
theorem literal_hit_witness :
    traducir defaultConfig (fun _ _ => .ok []) 0 init (.json [("texto", .jstr "  CH ")]) =
      (⟨200, [("texto_es", .jstr "ch"), ("traduccion", .jstr "ch")]⟩, init) :=
  literal_hit_returns_identity_without_ms (fun _ _ => .ok []) 0 init
    [("texto", .jstr "  CH ")] "ch" "  CH " (by decide) rfl (by decide)

/-- C3: while the resource status is Loading, the handler answers every
validated non-literal request with the 503 "loading" outcome and leaves the
module state unchanged — in particular `spawned` is untouched, so no
additional load attempt is started; the only guard interaction is the
non-blocking early-return check of line 80. -/
theorem loading_state_returns_503_and_no_new_attempt
    (cfg : Config) (model : ModelFn) (ms : Nat) (st : GuardState)
    (data : Payload) (t : String)
    (hst : status st = .loading)
    (hl : data.lookup "texto" = some (.jstr t))
    (hne : normalize t ≠ "")
    (hlen : (normalize t).length ≤ cfg.maxTextLen)
    (hnl : normalize t ∉ ABECEDARIO_KICHWA) :
    traducir cfg model ms st (.json data) =
      (⟨503, [("error", .jstr "Modelo cargando. Intenta nuevamente en 20-60 segundos."),
              ("status", .jstr "loading")]⟩, st) := by
  obtain ⟨htr, hld⟩ := (status_loading_iff st).mp hst
  have hw : warmup st = st := warmup_noop_of_loading hld
  unfold traducir
  simp only [hl]
  simp [hne, Nat.not_lt.mpr hlen, hnl, htr, hw, hld]

/-- C3 witness. -/
theorem loading_state_witness :
    traducir defaultConfig (fun _ _ => .ok []) 0 (warmup init) (.json [("texto", .jstr "hola")]) =
      (⟨503, [("error", .jstr "Modelo cargando. Intenta nuevamente en 20-60 segundos."),
              ("status", .jstr "loading")]⟩, warmup init) :=
  loading_state_returns_503_and_no_new_attempt defaultConfig (fun _ _ => .ok []) 0
    (warmup init) [("texto", .jstr "hola")] "hola"
    (by decide) rfl (by decide) (by decide) (by decide)

/-- C4 counterexample: the claim says a request arriving in the Error state
gets a 500 response with `detail` equal to the captured load error. In the
code the handler first calls `warmup_translator_async()` (line 192), which
synchronously sets `translator_loading = True`, so the line-194 check sends
503: at the state reached by a trigger followed by a failed load (status
Error), the request is answered 503, not 500. -/
theorem error_state_request_returns_503_not_500 :
    status (jobFail "boom" (warmup init)) = .error ∧
    (traducir defaultConfig (fun _ _ => .ok []) 0 (jobFail "boom" (warmup init))
        (.json [("texto", .jstr "hola")])).1.code = 503 := by
  decide

/-- C4 (amended): for every non-literal validated input arriving while the
resource status is Error, the handler re-triggers loading — it starts exactly
one new load attempt (`spawned` grows by one), clears the stored error detail
and flags loading — and returns the 503 "loading" response; the 500
model-unavailable response carrying the stored detail is returned only when
no load is in flight after the trigger call, which the synchronous trigger
excludes. -/
theorem error_state_retriggers_load_returns_503
    (cfg : Config) (model : ModelFn) (ms : Nat) (st : GuardState)
    (data : Payload) (t : String)
    (hst : status st = .error)
    (hl : data.lookup "texto" = some (.jstr t))
    (hne : normalize t ≠ "")
    (hlen : (normalize t).length ≤ cfg.maxTextLen)
    (hnl : normalize t ∉ ABECEDARIO_KICHWA) :
    traducir cfg model ms st (.json data) =
      (⟨503, [("error", .jstr "Modelo cargando. Intenta nuevamente en 20-60 segundos."),
              ("status", .jstr "loading")]⟩, warmup st) ∧
    (warmup st).translator_error = none ∧
    (warmup st).translator_loading = true ∧
    (warmup st).spawned = st.spawned + 1 := by
  obtain ⟨htr, hld, herr⟩ := (status_error_iff st).mp hst
  have hw := warmup_proceeds htr hld
  refine ⟨?_, by rw [hw], by rw [hw], by rw [hw]⟩
  unfold traducir
  simp only [hl]
  simp [hne, Nat.not_lt.mpr hlen, hnl, htr, hw]

/-- C4 witness. -/
theorem error_state_witness :
    traducir defaultConfig (fun _ _ => .ok []) 0 (jobFail "boom" (warmup init))
        (.json [("texto", .jstr "hola")]) =
      (⟨503, [("error", .jstr "Modelo cargando. Intenta nuevamente en 20-60 segundos."),
              ("status", .jstr "loading")]⟩, warmup (jobFail "boom" (warmup init))) ∧
    (warmup (jobFail "boom" (warmup init))).translator_error = none ∧
    (warmup (jobFail "boom" (warmup init))).translator_loading = true ∧
    (warmup (jobFail "boom" (warmup init))).spawned =
      (jobFail "boom" (warmup init)).spawned + 1 :=
  error_state_retriggers_load_returns_503 defaultConfig (fun _ _ => .ok []) 0
    (jobFail "boom" (warmup init)) [("texto", .jstr "hola")] "hola"
    (by decide) rfl (by decide) (by decide) (by decide)

/-- C5: the claim says that in every reachable state the error detail is
non-null iff the status is Error (with the trigger clearing it). The
lock-free code violates this: two racing callers both pass the line-80 guard
and spawn two `_job` threads; the first job fails, storing `"m1"` in
`translator_error` (lines 95-96), then the second job succeeds, storing the
bundle (lines 91-93) without ever touching `translator_error`. The final
state of this interleaving has the bundle present — status Ready, as the
code derives it (line 146 would report `"ready"`) — together with the
non-null error detail `"m1"`, and no load in flight. -/
theorem race_leaves_error_set_while_ready :
    (ConcF.crun ConcF.flakyLoader ConcF.cinit ConcF.raceFailThenOk).translator = true ∧
    (ConcF.crun ConcF.flakyLoader ConcF.cinit ConcF.raceFailThenOk).error = some "m1" ∧
    (ConcF.crun ConcF.flakyLoader ConcF.cinit ConcF.raceFailThenOk).loading = false := by
  decide

/-- C6: a parsed JSON body with no `texto` key is rejected 400 with
`No se envió texto` (the `dict.get` default `""` normalizes to empty,
line 172/179), and a `texto` value that is not a JSON string (including
null) is rejected 400 with the must-be-string error (line 173/174). -/
theorem missing_or_non_string_texto_rejected_400
    (cfg : Config) (model : ModelFn) (ms : Nat) (st : GuardState) (data : Payload) :
    (data.lookup "texto" = none →
      traducir cfg model ms st (.json data) =
        (⟨400, [("error", .jstr "No se envió texto")]⟩, st)) ∧
    (∀ v : JVal, data.lookup "texto" = some v → (∀ s : String, v ≠ .jstr s) →
      traducir cfg model ms st (.json data) =
        (⟨400, [("error", .jstr "El campo \x27texto\x27 debe ser string")]⟩, st)) := by
  constructor
  · intro hl
    unfold traducir
    simp only [hl]
    rfl
  · intro v hl hv
    unfold traducir
    simp only [hl]

/-- C6 witness. -/
theorem missing_or_non_string_witness :
    traducir defaultConfig (fun _ _ => .ok []) 0 init (.json []) =
      (⟨400, [("error", .jstr "No se envió texto")]⟩, init) ∧
    traducir defaultConfig (fun _ _ => .ok []) 0 init (.json [("texto", .jnull)]) =
      (⟨400, [("error", .jstr "El campo \x27texto\x27 debe ser string")]⟩, init) :=
  ⟨(missing_or_non_string_texto_rejected_400 defaultConfig (fun _ _ => .ok []) 0 init []).1 rfl,
   (missing_or_non_string_texto_rejected_400 defaultConfig (fun _ _ => .ok []) 0 init
      [("texto", .jnull)]).2 .jnull rfl (fun _ h => JVal.noConfusion h)⟩

/-- The too-long message (line 182) is at least 42 characters long. -/
theorem tooLongMsg_length (cfg : Config) : 42 ≤ (tooLongMsg cfg).length := by
  unfold tooLongMsg
  rw [String.length_append, String.length_append]
  have h1 : ("Texto demasiado largo. Máximo " : String).length = 30 := by decide
  have h2 : (" caracteres." : String).length = 12 := by decide
  omega

/-- The empty-text rejection message differs from every too-long message. -/
theorem no_texto_ne_tooLongMsg (cfg : Config) :
    ("No se envió texto" : String) ≠ tooLongMsg cfg := by
  intro h
  have hlen := congrArg String.length h
  have h17 : ("No se envió texto" : String).length = 17 := by decide
  have h42 := tooLongMsg_length cfg
  omega

/-- C7: an input whose normalized text has length exactly the configured
maximum passes validation (the response is never the too-long rejection),
while an input whose normalized text is one character longer is rejected 400
with the too-long error. -/
theorem max_length_boundary_accept_reject
    (cfg : Config) (model : ModelFn) (ms : Nat) (st : GuardState)
    (data₁ data₂ : Payload) (t₁ t₂ : String)
    (hl1 : data₁.lookup "texto" = some (.jstr t₁))
    (hl2 : data₂.lookup "texto" = some (.jstr t₂))
    (h1 : (normalize t₁).length = cfg.maxTextLen)
    (h2 : (normalize t₂).length = cfg.maxTextLen + 1) :
    (traducir cfg model ms st (.json data₁)).1 ≠
      ⟨400, [("error", .jstr (tooLongMsg cfg))]⟩ ∧
    (traducir cfg model ms st (.json data₂)).1 =
      ⟨400, [("error", .jstr (tooLongMsg cfg))]⟩ := by
  constructor
  · unfold traducir
    simp only [hl1]
    split
    · intro h
      refine no_texto_ne_tooLongMsg cfg ?_
      simpa using h
    · split
      · rename_i hgt
        omega
      · split
        · intro h
          simp at h
        · split
          · split
            · intro h
              simp at h
            · intro h
              simp at h
          · split
            · intro h
              simp at h
            · intro h
              simp at h
            · intro h
              simp at h
  · have hne : normalize t₂ ≠ "" := by
      intro he
      rw [he] at h2
      simp [String.length_empty] at h2
    have hgt : (normalize t₂).length > cfg.maxTextLen := by omega
    unfold traducir
    simp only [hl2]
    simp [hne, hgt]

/-- C7 witness (configured maximum 2: `"ab"` accepted, `"xyz"` rejected). -/
theorem max_length_boundary_witness :
    (traducir ⟨2, 200⟩ (fun _ _ => .ok []) 0 init (.json [("texto", .jstr "ab")])).1 ≠
      ⟨400, [("error", .jstr (tooLongMsg ⟨2, 200⟩))]⟩ ∧
    (traducir ⟨2, 200⟩ (fun _ _ => .ok []) 0 init (.json [("texto", .jstr "xyz")])).1 =
      ⟨400, [("error", .jstr (tooLongMsg ⟨2, 200⟩))]⟩ :=
  max_length_boundary_accept_reject ⟨2, 200⟩ (fun _ _ => .ok []) 0 init
    [("texto", .jstr "ab")] [("texto", .jstr "xyz")] "ab" "xyz"
    rfl rfl (by decide) (by decide)

/-- C8 counterexample: the claim says `/health` reports a `model_status`
drawn from NotReady/Loading/Ready/Error, in particular Error after a failed
load. At the state reached by a trigger followed by a failed load (derived
status Error), line 146 reports `"not_ready"` — the handler can never emit an
error status string. -/
theorem health_reports_not_ready_after_failed_load :
    status (jobFail "boom" (warmup init)) = .error ∧
    (health (jobFail "boom" (warmup init))).body.lookup "model_status" =
      some (.jstr "not_ready") ∧
    (health (jobFail "boom" (warmup init))).body.lookup "model_error" =
      some (.jstr "boom") := by
  decide

/-- C8 (amended): in every resource state `/health` returns 200 with a body
containing `ok = true`, a `model_status` drawn from the three values
`"ready"`, `"loading"`, `"not_ready"` (after a failed load it reports
`"not_ready"`, with `model_error` carrying the failure message rather than a
distinct status), `model_error` equal to the stored error string or null, and
`model_loaded_at` equal to the stored timestamp or null. -/
theorem health_always_200_with_three_statuses (st : GuardState) :
    (health st).code = 200 ∧
    (health st).body.lookup "ok" = some (.jbool true) ∧
    ((health st).body.lookup "model_status" = some (.jstr "ready") ∨
     (health st).body.lookup "model_status" = some (.jstr "loading") ∨
     (health st).body.lookup "model_status" = some (.jstr "not_ready")) ∧
    (health st).body.lookup "model_error" = some (jOptStr st.translator_error) ∧
    (health st).body.lookup "model_loaded_at" = some (jOptNum st.translator_loaded_at) := by
  refine ⟨rfl, rfl, ?_, rfl, rfl⟩
  by_cases h1 : st.translator.isSome
  · left
    simp [health, h1, List.lookup]
  · by_cases h2 : st.translator_loading
    · right; left
      simp [health, h1, h2, List.lookup]
    · right; right
      simp [health, h1, h2, List.lookup]

/-- C9: with the resource Ready, an exception raised by the external
translation call (line 209) is caught at the except of line 221 and turned
into the 500 response `Error interno de traducción`; the module state —
status, bundle, error detail, loaded_at — is returned unchanged, so the
resource stays usable. -/
theorem translation_exception_returns_500_state_unchanged
    (cfg : Config) (model : ModelFn) (ms : Nat) (st : GuardState)
    (data : Payload) (t e : String)
    (hready : status st = .ready)
    (hl : data.lookup "texto" = some (.jstr t))
    (hne : normalize t ≠ "")
    (hlen : (normalize t).length ≤ cfg.maxTextLen)
    (hnl : normalize t ∉ ABECEDARIO_KICHWA)
    (hmodel : model (normalize t) cfg.maxModelLen = .error e) :
    traducir cfg model ms st (.json data) =
      (⟨500, [("error", .jstr "Error interno de traducción")]⟩, st) := by
  have htr : st.translator = some () := by
    have hsome := (status_ready_iff st).mp hready
    cases h : st.translator with
    | none => rw [h] at hsome; simp at hsome
    | some u => cases u; rfl
  unfold traducir
  simp only [hl]
  simp [hne, Nat.not_lt.mpr hlen, hnl, htr, hmodel]

/-- C9 witness. -/
theorem translation_exception_witness :
    traducir defaultConfig (fun _ _ => .error "CUDA out of memory") 0
        (jobSucceed 42 (warmup init)) (.json [("texto", .jstr "hola")]) =
      (⟨500, [("error", .jstr "Error interno de traducción")]⟩,
       jobSucceed 42 (warmup init)) :=
  translation_exception_returns_500_state_unchanged defaultConfig
    (fun _ _ => .error "CUDA out of memory") 0 (jobSucceed 42 (warmup init))
    [("texto", .jstr "hola")] "hola" "CUDA out of memory"
    (by decide) rfl (by decide) (by decide) (by decide) rfl

/-- C10: with the resource Ready, when the external translation call returns
a non-empty result whose first dict lacks `translation_text`, the `dict.get`
default of line 210 makes the handler answer 200 with `traduccion` equal to
the empty string (no error response), the state unchanged. -/
theorem missing_translation_text_yields_empty_traduccion
    (cfg : Config) (model : ModelFn) (ms : Nat) (st : GuardState)
    (data : Payload) (t : String) (d : List (String × String)) (rest : ModelResult)
    (hready : status st = .ready)
    (hl : data.lookup "texto" = some (.jstr t))
    (hne : normalize t ≠ "")
    (hlen : (normalize t).length ≤ cfg.maxTextLen)
    (hnl : normalize t ∉ ABECEDARIO_KICHWA)
    (hmodel : model (normalize t) cfg.maxModelLen = .ok (d :: rest))
    (hmiss : d.lookup "translation_text" = none) :
    traducir cfg model ms st (.json data) =
      (⟨200, [("texto_es", .jstr (normalize t)), ("traduccion", .jstr ""),
              ("ms", .jnum ms)]⟩, st) := by
  have htr : st.translator = some () := by
    have hsome := (status_ready_iff st).mp hready
    cases h : st.translator with
    | none => rw [h] at hsome; simp at hsome
    | some u => cases u; rfl
  unfold traducir
  simp only [hl]
  simp [hne, Nat.not_lt.mpr hlen, hnl, htr, hmodel, pyDictGetStr, hmiss]
  rfl

/-- C10 witness. -/
theorem missing_translation_text_witness :
    traducir defaultConfig (fun _ _ => .ok [[]]) 7 (jobSucceed 42 (warmup init))
        (.json [("texto", .jstr "hola")]) =
      (⟨200, [("texto_es", .jstr "hola"), ("traduccion", .jstr ""), ("ms", .jnum 7)]⟩,
       jobSucceed 42 (warmup init)) :=
  missing_translation_text_yields_empty_traduccion defaultConfig
    (fun _ _ => .ok [[]]) 7 (jobSucceed 42 (warmup init))
    [("texto", .jstr "hola")] "hola" [] []
    (by decide) rfl (by decide) (by decide) (by decide) rfl rfl

end TraductorApi
